import Mathlib

/-!
Shallow embedding of the validation-and-session core of the consumer banking
demo (tRPC routers `authRouter` and `accountRouter`, the `FundingModal`
React component, and the zod field schemas they use).

Conventions of the embedding:
* JS strings become Lean `String`s; the handful of regular expressions in the
  source are translated into explicit structural checks on the character list,
  each annotated with the regex it embeds.
* Monetary amounts are modelled exactly, in integer minor units (cents):
  a JS amount `v` corresponds to the integer `100 * v`, so the zod checks
  `.positive()` and `val >= 0.01` become `0 < cents` and `1 ≤ cents`, and
  `account.balance + amount` becomes exact integer addition.  The source uses
  IEEE-754 doubles and its own comment flags the resulting drift as a known
  hazard; the claims under study do not hinge on rounding, so arithmetic is
  taken exact.
* The relational store becomes explicit lists of rows threaded through each
  operation; `db.delete`/`db.insert`/`db.update` become `List.filter`,
  append, and `List.map`.
* `jwt.sign({userId}, SECRET, {expiresIn: "7d"})` with a fixed secret is a
  deterministic function of the payload and the issue time (seconds), so a
  token is modelled by the pair (userId, iat): two tokens are equal exactly
  when user id and issue second agree.
* `bcrypt.compare` is an opaque one-way-hash comparison capability (out of
  scope per the spec), passed to `login` as an explicit boolean function.
* Fallible handlers return `Except (String × String) α` where the pair is
  the thrown TRPCError's (code, message).
-/

namespace SupportBank

/-- JavaScript whitespace characters relevant to the `\s` class for the ASCII
inputs at hand (space, tab, newline, carriage return, vertical tab, form
feed). -/
def isJsWhitespace (c : Char) : Bool :=
  c == ' ' || c == '\t' || c == '\n' || c == '\r' || c.toNat == 11 || c.toNat == 12

/-- Embeds `cardNumber.replace(/\s+/g, "")`: drop every whitespace character. -/
def stripWhitespace (s : String) : List Char :=
  s.toList.filter (fun c => !isJsWhitespace c)

/-- Character of the list at index `i`, a padding blank when out of range
(every use is guarded by a length test, so the default is never the decider). -/
def charAt (ds : List Char) (i : Nat) : Char :=
  ds.getD i ' '

/-- Character range test, embedding a regex class such as `[2-9]`. -/
def charBetween (c lo hi : Char) : Bool :=
  lo.toNat ≤ c.toNat && c.toNat ≤ hi.toNat

/-- Numeric value of a digit character, embedding `parseInt(digits[i], 10)`
on a character already known to be a digit. -/
def digitVal (c : Char) : Nat :=
  c.toNat - '0'.toNat

/-- Luhn accumulator over the digit list taken right-to-left: `dbl` is the
`shouldDouble` flag of the source loop, toggling at each step, with doubled
digits above 9 reduced by 9. -/
def luhnSum : List Char → Bool → Nat
  | [], _ => 0
  | c :: rest, dbl =>
    let d := digitVal c
    let d := if dbl then (if 2 * d > 9 then 2 * d - 9 else 2 * d) else d
    d + luhnSum rest (!dbl)

/-- Server-side `passesLuhn` (src/server/routers/auth.ts): strip whitespace,
require 13-19 digits (`/^\d{13,19}$/`), then the alternating-doubling checksum
from the rightmost digit must be divisible by 10. -/
def passesLuhn (cardNumber : String) : Bool :=
  let digits := stripWhitespace cardNumber
  if 13 ≤ digits.length && digits.length ≤ 19 && digits.all Char.isDigit then
    luhnSum digits.reverse false % 10 == 0
  else
    false

inductive CardType where
  | visa
  | mastercard
  | amex
  | discover
  | jcb
deriving DecidableEq, Repr

/-- Visa regex `/^4\d{12}(\d{3})?(\d{3})?$/`: digits only, leading 4,
length 13, 16 or 19. -/
def visaMatch (ds : List Char) : Bool :=
  ds.all Char.isDigit && charAt ds 0 == '4' &&
    (ds.length == 13 || ds.length == 16 || ds.length == 19)

/-- Mastercard old-range regex `/^5[1-5]\d{14}$/`. -/
def mastercardOldMatch (ds : List Char) : Bool :=
  ds.all Char.isDigit && ds.length == 16 && charAt ds 0 == '5' &&
    charBetween (charAt ds 1) '1' '5'

/-- Mastercard new-range regex
`/^2(2[2-9]\d{2}|[3-6]\d{3}|7[01]\d{2}|720\d{2})\d{10}$/`, translated branch by
branch: a leading 2, then an alternative of length 4 (first three branches)
or 5 (the `720\d{2}` branch), then exactly 10 digits — so the first three
branches anchor at total length 15 and only the `720` branch at 16. -/
def mastercardNewMatch (ds : List Char) : Bool :=
  ds.all Char.isDigit && charAt ds 0 == '2' &&
    ((charAt ds 1 == '2' && charBetween (charAt ds 2) '2' '9' && ds.length == 15) ||
     (charBetween (charAt ds 1) '3' '6' && ds.length == 15) ||
     (charAt ds 1 == '7' && (charAt ds 2 == '0' || charAt ds 2 == '1') && ds.length == 15) ||
     (charAt ds 1 == '7' && charAt ds 2 == '2' && charAt ds 3 == '0' && ds.length == 16))

/-- Amex regex `/^3[47]\d{13}$/`. -/
def amexMatch (ds : List Char) : Bool :=
  ds.all Char.isDigit && ds.length == 15 && charAt ds 0 == '3' &&
    (charAt ds 1 == '4' || charAt ds 1 == '7')

/-- Discover regex `/^6(?:011|5\d{2}|4[4-9]\d)\d{12}$/`: each alternative has
length 3, so the total length is 16. -/
def discoverMatch (ds : List Char) : Bool :=
  ds.all Char.isDigit && ds.length == 16 && charAt ds 0 == '6' &&
    ((charAt ds 1 == '0' && charAt ds 2 == '1' && charAt ds 3 == '1') ||
     charAt ds 1 == '5' ||
     (charAt ds 1 == '4' && charBetween (charAt ds 2) '4' '9'))

/-- JCB regex `/^35(2[89]|[3-8]\d)\d{12}$/`: each alternative has length 2,
so the total length is 16. -/
def jcbMatch (ds : List Char) : Bool :=
  ds.all Char.isDigit && ds.length == 16 && charAt ds 0 == '3' && charAt ds 1 == '5' &&
    ((charAt ds 2 == '2' && (charAt ds 3 == '8' || charAt ds 3 == '9')) ||
     charBetween (charAt ds 2) '3' '8')

/-- Server-side `detectCardType` (src/server/routers/auth.ts): strip
whitespace, then test the brand regexes in source order. -/
def detectCardType (cardNumber : String) : Option CardType :=
  let digits := stripWhitespace cardNumber
  if visaMatch digits then some CardType.visa
  else if mastercardOldMatch digits || mastercardNewMatch digits then some CardType.mastercard
  else if amexMatch digits then some CardType.amex
  else if discoverMatch digits then some CardType.discover
  else if jcbMatch digits then some CardType.jcb
  else none

/-- Client-side `passesLuhn` copied inside src/components/FundingModal.tsx —
embedded separately because the component carries its own textual copy of the
function, which claim C10 compares against the server's. -/
def clientPassesLuhn (cardNumber : String) : Bool :=
  let digits := stripWhitespace cardNumber
  if 13 ≤ digits.length && digits.length ≤ 19 && digits.all Char.isDigit then
    luhnSum digits.reverse false % 10 == 0
  else
    false

/-- Client-side visa regex `/^4\d{12}(\d{3})?(\d{3})?$/` from FundingModal. -/
def clientVisaMatch (ds : List Char) : Bool :=
  ds.all Char.isDigit && charAt ds 0 == '4' &&
    (ds.length == 13 || ds.length == 16 || ds.length == 19)

/-- Client-side mastercard old-range regex `/^5[1-5]\d{14}$/`. -/
def clientMastercardOldMatch (ds : List Char) : Bool :=
  ds.all Char.isDigit && ds.length == 16 && charAt ds 0 == '5' &&
    charBetween (charAt ds 1) '1' '5'

/-- Client-side mastercard new-range regex
`/^2(2[2-9]\d{2}|[3-6]\d{3}|7[01]\d{2}|720\d{2})\d{10}$/`. -/
def clientMastercardNewMatch (ds : List Char) : Bool :=
  ds.all Char.isDigit && charAt ds 0 == '2' &&
    ((charAt ds 1 == '2' && charBetween (charAt ds 2) '2' '9' && ds.length == 15) ||
     (charBetween (charAt ds 1) '3' '6' && ds.length == 15) ||
     (charAt ds 1 == '7' && (charAt ds 2 == '0' || charAt ds 2 == '1') && ds.length == 15) ||
     (charAt ds 1 == '7' && charAt ds 2 == '2' && charAt ds 3 == '0' && ds.length == 16))

/-- Client-side amex regex `/^3[47]\d{13}$/`. -/
def clientAmexMatch (ds : List Char) : Bool :=
  ds.all Char.isDigit && ds.length == 15 && charAt ds 0 == '3' &&
    (charAt ds 1 == '4' || charAt ds 1 == '7')

/-- Client-side discover regex `/^6(?:011|5\d{2}|4[4-9]\d)\d{12}$/`. -/
def clientDiscoverMatch (ds : List Char) : Bool :=
  ds.all Char.isDigit && ds.length == 16 && charAt ds 0 == '6' &&
    ((charAt ds 1 == '0' && charAt ds 2 == '1' && charAt ds 3 == '1') ||
     charAt ds 1 == '5' ||
     (charAt ds 1 == '4' && charBetween (charAt ds 2) '4' '9'))

/-- Client-side JCB regex `/^35(2[89]|[3-8]\d)\d{12}$/`. -/
def clientJcbMatch (ds : List Char) : Bool :=
  ds.all Char.isDigit && ds.length == 16 && charAt ds 0 == '3' && charAt ds 1 == '5' &&
    ((charAt ds 2 == '2' && (charAt ds 3 == '8' || charAt ds 3 == '9')) ||
     charBetween (charAt ds 2) '3' '8')

/-- Client-side `detectCardType` copied inside src/components/FundingModal.tsx. -/
def clientDetectCardType (cardNumber : String) : Option CardType :=
  let digits := stripWhitespace cardNumber
  if clientVisaMatch digits then some CardType.visa
  else if clientMastercardOldMatch digits || clientMastercardNewMatch digits then some CardType.mastercard
  else if clientAmexMatch digits then some CardType.amex
  else if clientDiscoverMatch digits then some CardType.discover
  else if clientJcbMatch digits then some CardType.jcb
  else none

/-- Issue list produced by `cardFundingSchema`'s two chained zod refinements on
the card number: a failing `passesLuhn` contributes "Card number is invalid",
and a null `detectCardType` contributes "Unsupported or unknown card type";
zod runs both refinements and collects the issues in this order, and the value
is accepted exactly when the list is empty. -/
def cardIssues (s : String) : List String :=
  (if passesLuhn s then [] else ["Card number is invalid"]) ++
    (if (detectCardType s).isSome then [] else ["Unsupported or unknown card type"])

/-- Does `needle` occur at the head of `hay`? -/
def leadMatch : List Char → List Char → Bool
  | [], _ => true
  | _ :: _, [] => false
  | a :: as, b :: bs => a == b && leadMatch as bs

/-- Does `needle` occur as a contiguous run anywhere in `hay`? -/
def subSearch (needle : List Char) : List Char → Bool
  | [] => leadMatch needle []
  | c :: rest => leadMatch needle (c :: rest) || subSearch needle rest

/-- Substring test on strings, used to express "the message contains …". -/
def strContains (hay needle : String) : Bool :=
  subSearch needle.toList hay.toList

/-- ASCII-lowercased character code, for case-insensitive comparison. -/
def lowerCode (c : Char) : Nat :=
  if 65 ≤ c.toNat && c.toNat ≤ 90 then c.toNat + 32 else c.toNat

/-- Does `needle` occur at the head of `hay`, comparing ASCII
case-insensitively? -/
def leadMatchCI : List Char → List Char → Bool
  | [], _ => true
  | _ :: _, [] => false
  | a :: as, b :: bs => lowerCode a == lowerCode b && leadMatchCI as bs

/-- Does `needle` occur as a contiguous run anywhere in `hay`, comparing ASCII
case-insensitively? -/
def subSearchCI (needle : List Char) : List Char → Bool
  | [] => leadMatchCI needle []
  | c :: rest => leadMatchCI needle (c :: rest) || subSearchCI needle rest

/-- Case-insensitive substring test on strings, matching how the spec and the
repository's tests look for the words "invalid" and "unsupported" in messages
(regex flag `i`). -/
def strContainsCI (hay needle : String) : Bool :=
  subSearchCI needle.toList hay.toList

/-- Token minted by `jwt.sign({ userId: user.id }, SECRET, { expiresIn: "7d" })`
with the fixed server secret: the signed string is a deterministic function of
the payload's `userId` and the issue time `iat` (whole seconds), so equality of
tokens is exactly equality of these two fields. -/
structure JwtToken where
  userId : Nat
  iat : Nat
deriving DecidableEq, Repr

/-- Row of the `sessions` table. -/
structure Session where
  userId : Nat
  token : JwtToken
  expiresAt : Nat
deriving DecidableEq, Repr

/-- Session issuance sequence shared verbatim by `signup` (auth.ts lines
92-107) and `login` (lines 145-159): delete every session row of the user
(`db.delete(sessions).where(eq(sessions.userId, user.id))`), mint a token, and
insert one new row expiring 7 days (604800 seconds) later. -/
def issueSession (sessionsDb : List Session) (userId nowSec : Nat) :
    List Session × JwtToken :=
  let cleared := sessionsDb.filter (fun s => !(s.userId == userId))
  let tok : JwtToken := ⟨userId, nowSec⟩
  (cleared ++ [⟨userId, tok, nowSec + 604800⟩], tok)

/-- Row of the `users` table, restricted to the fields the claims touch. -/
structure User where
  id : Nat
  email : String
  passwordHash : String
deriving DecidableEq, Repr

/-- Local-part character class `[A-Za-z0-9_'+\-\.]` of zod's email regex. -/
def emailLocalChar (c : Char) : Bool :=
  c.isAlpha || c.isDigit || c == '_' || c == Char.ofNat 39 || c == '+' || c == '-' || c == '.'

/-- Final local-part character class `[A-Za-z0-9_+-]` of zod's email regex. -/
def emailLastLocalChar (c : Char) : Bool :=
  c.isAlpha || c.isDigit || c == '_' || c == '+' || c == '-'

/-- Domain label `[A-Za-z0-9][A-Za-z0-9\-]*` of zod's email regex. -/
def domainLabelOk (l : List Char) : Bool :=
  match l with
  | [] => false
  | c :: rest => (c.isAlpha || c.isDigit) && rest.all (fun d => d.isAlpha || d.isDigit || d == '-')

/-- Top-level domain `[A-Za-z]{2,}` of zod's email regex. -/
def tldOk (l : List Char) : Bool :=
  2 ≤ l.length && l.all Char.isAlpha

/-- Splits a character list on a separator character, keeping empty pieces —
the character-level counterpart of `String.prototype.split`. -/
def splitOnChar (sep : Char) : List Char → List (List Char)
  | [] => [[]]
  | c :: rest =>
    let r := splitOnChar sep rest
    if c == sep then [] :: r
    else
      match r with
      | [] => [[c]]
      | h :: t => (c :: h) :: t

/-- Embeds `z.string().email()`: the zod email regex
`/^(?!\.)(?!.*\.\.)([A-Za-z0-9_'+\-\.]*)[A-Za-z0-9_+-]@([A-Za-z0-9][A-Za-z0-9\-]*\.)+[A-Za-z]{2,}$/`
(zod is a library dependency; this is its published check, here spelled out
structurally: no ".." anywhere, exactly one "@", a non-empty local part of the
allowed characters not starting with "." and ending in the narrower class, and
a domain of one or more labels followed by an alphabetic TLD of length ≥ 2).
Note that the check is purely syntactic: no domain-typo detection of any kind. -/
def zodEmailOk (s : String) : Bool :=
  let cs := s.toList
  (!subSearch ['.', '.'] cs) &&
    (match splitOnChar '@' cs with
     | [lc, domc] =>
       (!(lc.headD ' ' == '.')) &&
         lc.all emailLocalChar &&
         (match lc.getLast? with
          | some c => emailLastLocalChar c
          | none => false) &&
         (match splitOnChar '.' domc with
          | [] => false
          | [_] => false
          | parts =>
            (match parts.getLast? with
             | some t => tldOk t
             | none => false) &&
              (parts.dropLast.all domainLabelOk))
     | _ => false)

/-- ASCII-lowercased string, embedding the `.toLowerCase()` transform on the
signup email (the repository's emails are ASCII; zod's transform is
`String.prototype.toLowerCase`). -/
def asciiLower (s : String) : String :=
  String.mk (s.toList.map (fun c =>
    if 65 ≤ c.toNat && c.toNat ≤ 90 then Char.ofNat (c.toNat + 32) else c))

/-- ASCII-uppercased string, embedding the `.toUpperCase()` transform on the
signup state code. -/
def asciiUpper (s : String) : String :=
  String.mk (s.toList.map (fun c =>
    if 97 ≤ c.toNat && c.toNat ≤ 122 then Char.ofNat (c.toNat - 32) else c))

/-- Signup email field, embedding `email: z.string().email().toLowerCase()`
(auth.ts line 50): syntactic check, then lowercase; `none` is a zod rejection.
This is the complete email validation the signup schema performs. -/
def signupEmailCheck (s : String) : Option String :=
  if zodEmailOk s then some (asciiLower s) else none

/-- Signup state field, embedding `state: z.string().length(2).toUpperCase()`
(auth.ts line 59): any string of exactly two characters is accepted and
uppercased; `none` is a zod rejection. This is the complete state validation
the signup schema performs. -/
def signupStateCheck (s : String) : Option String :=
  if s.length == 2 then some (asciiUpper s) else none

/-- Embeds `login` (auth.ts lines 119-168).  `compare` is the opaque
`bcrypt.compare` capability; `nowSec` the clock read for token minting.  On
success it returns the user id, the fresh token, and the updated sessions
table (prior sessions of the user deleted, one new row inserted); on failure
the thrown TRPCError's (code, message). -/
def login (compare : String → String → Bool) (usersDb : List User)
    (sessionsDb : List Session) (email password : String) (nowSec : Nat) :
    Except (String × String) (Nat × JwtToken × List Session) :=
  if !zodEmailOk email then
    Except.error ("BAD_REQUEST", "Invalid email")
  else
    match usersDb.find? (fun u => u.email == email) with
    | none => Except.error ("UNAUTHORIZED", "Invalid credentials")
    | some u =>
      if compare password u.passwordHash then
        let issued := issueSession sessionsDb u.id nowSec
        Except.ok (u.id, issued.2, issued.1)
      else
        Except.error ("UNAUTHORIZED", "Invalid credentials")

/-- Embeds `logout` (auth.ts lines 170-195).  `ctxUser` is the authenticated
user of the request context (if any), `cookie` the token parsed from the
`session` cookie (if any).  When the context has a user and a cookie token is
present, the session rows with that token are deleted; the result is always
`success: true`, with the message chosen by `ctx.user ? "Logged out
successfully" : "No active session"`. -/
def logout (ctxUser : Option Nat) (cookie : Option JwtToken)
    (sessionsDb : List Session) : List Session × Bool × String :=
  let sessionsOut :=
    match ctxUser, cookie with
    | some _, some tok => sessionsDb.filter (fun s => !(s.token == tok))
    | _, _ => sessionsDb
  (sessionsOut, true,
    match ctxUser with
    | some _ => "Logged out successfully"
    | none => "No active session")

/-- Row of the `accounts` table. -/
structure Account where
  id : Nat
  userId : Nat
  accountType : String
  balance : Int
  status : String
deriving DecidableEq, Repr

/-- Row of the `transactions` table; `createdAt` is the insertion timestamp
the `orderBy(transactions.createdAt)` query sorts on. -/
structure Txn where
  accountId : Nat
  type : String
  amount : Int
  description : String
  status : String
  createdAt : Nat
deriving DecidableEq, Repr

/-- The relational store as seen by the account router. -/
structure Store where
  accounts : List Account
  transactions : List Txn
deriving DecidableEq, Repr

/-- Funding source input, the discriminated union of `fundingSourceSchema`. -/
inductive FundingSource where
  | card (accountNumber : String) (routingNumber : Option String)
  | bank (accountNumber : String) (routingNumber : String)
deriving DecidableEq, Repr

/-- Discriminant string `input.fundingSource.type`. -/
def fundingTypeName : FundingSource → String
  | FundingSource.card _ _ => "card"
  | FundingSource.bank _ _ => "bank"

/-- Embeds `/^\d{9}$/` of `bankFundingSchema`'s routing number. -/
def routingNumberOk (r : String) : Bool :=
  r.length == 9 && r.toList.all Char.isDigit

/-- Zod issues of `fundingSourceSchema` on the given input: card numbers go
through `cardFundingSchema`'s two refinements, bank sources through the
routing-number regex. -/
def fundingIssues : FundingSource → List String
  | FundingSource.card n _ => cardIssues n
  | FundingSource.bank _ r =>
    if routingNumberOk r then [] else ["Routing number must be 9 digits"]

/-- Embeds the zod check on `amount`: `z.number().positive().refine(val =>
val >= 0.01)`, in exact cents: `.positive()` is `0 < cents` and
`val >= 0.01` is `1 ≤ cents`. -/
def amountOk (amountCents : Int) : Bool :=
  decide (0 < amountCents) && decide (1 ≤ amountCents)

/-- First transaction row in ascending `createdAt` order — the row
`db.select().from(transactions).orderBy(transactions.createdAt).limit(1).get()`
returns: the minimum by `createdAt` over the whole table, earliest-inserted
winning ties. -/
def firstByCreatedAt (ts : List Txn) : Option Txn :=
  ts.foldl
    (fun acc t =>
      match acc with
      | none => some t
      | some b => if t.createdAt < b.createdAt then some t else some b)
    none

/-- Embeds `fundAccount` (auth.ts lines 353-428).  Input validation (zod),
ownership lookup, active check, transaction insert, the
`orderBy(createdAt).limit(1)` fetch, balance update, and re-read of the
updated account; returns the new store, the fetched transaction, and
`newBalance`. -/
def fundAccount (db : Store) (callerId accountId : Nat) (amount : Int)
    (src : FundingSource) (nowSec : Nat) :
    Except (String × String) (Store × Option Txn × Int) :=
  if !amountOk amount then
    Except.error ("BAD_REQUEST", "Amount must be at least $0.01")
  else if !(fundingIssues src == []) then
    Except.error ("BAD_REQUEST", (fundingIssues src).headD "")
  else
    match db.accounts.find? (fun a => a.id == accountId && a.userId == callerId) with
    | none => Except.error ("NOT_FOUND", "Account not found")
    | some account =>
      if !(account.status == "active") then
        Except.error ("BAD_REQUEST", "Account is not active")
      else
        let newTxn : Txn :=
          ⟨accountId, "deposit", amount, "Funding from " ++ fundingTypeName src,
            "completed", nowSec⟩
        let txns := db.transactions ++ [newTxn]
        let fetched := firstByCreatedAt txns
        let accountsOut := db.accounts.map (fun a =>
          if a.id == accountId then { a with balance := a.balance + amount } else a)
        match accountsOut.find? (fun a => a.id == accountId) with
        | none => Except.error ("INTERNAL_SERVER_ERROR", "Failed to load updated account balance")
        | some updated => Except.ok (⟨accountsOut, txns⟩, fetched, updated.balance)

/-- Transaction row as returned by `getTransactions`, annotated with the
owning account's type. -/
structure EnrichedTxn where
  txn : Txn
  accountType : Option String
deriving DecidableEq, Repr

/-- Embeds `getTransactions` (auth.ts lines 430-467): ownership check, then
every transaction of the account, each enriched with the account's type by a
fresh lookup.  Descriptions are passed through exactly as stored. -/
def getTransactions (db : Store) (callerId accountId : Nat) :
    Except (String × String) (List EnrichedTxn) :=
  match db.accounts.find? (fun a => a.id == accountId && a.userId == callerId) with
  | none => Except.error ("NOT_FOUND", "Account not found")
  | some _ =>
    Except.ok ((db.transactions.filter (fun t => t.accountId == accountId)).map
      (fun t =>
        ⟨t, (db.accounts.find? (fun a => a.id == t.accountId)).map
          (fun a => a.accountType)⟩))

/-! Concrete fixtures for the evaluation theorems. -/

/-- Store with one active checking account of user 7 (balance $10.00) that
already holds one earlier transaction (a $10.00 deposit inserted at time
100). -/
def c1Store : Store :=
  ⟨[⟨1, 7, "checking", 1000, "active"⟩],
   [⟨1, "deposit", 1000, "Funding from card", "completed", 100⟩]⟩

/-- Store with one active checking account of user 7 whose single stored
transaction description carries a literal script tag. -/
def c5Store : Store :=
  ⟨[⟨1, 7, "checking", 1000, "active"⟩],
   [⟨1, "deposit", 1000, "<script>alert(\"owned\")</script>", "completed", 100⟩]⟩

/-- Users table holding the single test user of the session scenarios. -/
def c2Users : List User := [⟨1, "multi@example.com", "hash1"⟩]

/-- Concrete instantiation of the opaque hash-comparison capability for the
closed scenarios: the stored credential is compared by equality. -/
def eqCompare (p h : String) : Bool := p == h

/-- Filtering for a predicate after filtering for its negation leaves
nothing. -/
theorem filter_not_self {α : Type} (p : α → Bool) (l : List α) :
    (l.filter (fun a => !(p a))).filter p = [] := by
  induction l with
  | nil => rfl
  | cons a l ih => cases hp : p a <;> simp [List.filter_cons, hp, ih]

/-- C1: funding an own active account with a valid amount and instrument
appends exactly one completed deposit of that amount and raises the balance by
exactly that amount, but the handler fetches the transaction to return with
`orderBy(createdAt).limit(1)` — the OLDEST row of the whole table — so with a
pre-existing earlier transaction the response carries that other transaction,
not the one just created.  Concretely: funding account 1 of user 7 with $50.00
by card 4242424242424242 appends the new $50.00 deposit and returns balance
$60.00, yet the returned transaction is the old $10.00 row, which differs from
the created one. -/
theorem c1_fundAccount_returns_oldest_transaction :
    fundAccount c1Store 7 1 5000 (FundingSource.card "4242424242424242" none) 200 =
      Except.ok
        (⟨[⟨1, 7, "checking", 6000, "active"⟩],
          [⟨1, "deposit", 1000, "Funding from card", "completed", 100⟩,
           ⟨1, "deposit", 5000, "Funding from card", "completed", 200⟩]⟩,
         some ⟨1, "deposit", 1000, "Funding from card", "completed", 100⟩,
         6000) ∧
    (⟨1, "deposit", 1000, "Funding from card", "completed", 100⟩ : Txn) ≠
      ⟨1, "deposit", 5000, "Funding from card", "completed", 200⟩ :=
  ⟨rfl, by decide⟩

/-- C2 counterexample: logging user 1 in twice at the same clock second (1000)
mints the SAME token both times — `jwt.sign` is deterministic in the payload
and the second-granularity issue time — so the surviving session's token does
not differ from the previously issued token, refuting the claim as stated. -/
theorem c2_counterexample_same_second_relogin :
    (login eqCompare c2Users [] "multi@example.com" "hash1" 1000 =
      Except.ok (1, ⟨1, 1000⟩, [⟨1, ⟨1, 1000⟩, 605800⟩])) ∧
    (login eqCompare c2Users [⟨1, ⟨1, 1000⟩, 605800⟩] "multi@example.com" "hash1" 1000 =
      Except.ok (1, ⟨1, 1000⟩, [⟨1, ⟨1, 1000⟩, 605800⟩])) ∧
    ¬ ((⟨1, 1000⟩ : JwtToken) ≠ (⟨1, 1000⟩ : JwtToken)) :=
  ⟨rfl, rfl, fun h => h rfl⟩

/-- C2 (amended): after the session issuance that both signup and login run on
success, exactly one session row exists for the user, and the surviving token
differs from every token issued at a different clock second (two issuances
within the same second yield identical tokens, which the counterexample
exhibits). -/
theorem c2_single_session_and_fresh_token (sessionsDb : List Session)
    (u nowSec : Nat) (prior : JwtToken) (hiat : prior.iat ≠ nowSec) :
    (((issueSession sessionsDb u nowSec).1.filter (fun s => s.userId == u)).length = 1) ∧
    (issueSession sessionsDb u nowSec).2 ≠ prior := by
  constructor
  · show ((sessionsDb.filter (fun (s : Session) => !(s.userId == u)) ++
        ([⟨u, ⟨u, nowSec⟩, nowSec + 604800⟩] : List Session)).filter
          (fun (s : Session) => s.userId == u)).length = 1
    rw [List.filter_append, filter_not_self (fun (s : Session) => s.userId == u) sessionsDb]
    simp [List.filter_cons]
  · intro h
    exact hiat (by rw [← h]; exact rfl)

/-- Witness for the amended C2 theorem at a concrete instance. -/
theorem c2_single_session_and_fresh_token_witness :
    ((((issueSession [] 1 5).1.filter (fun s => s.userId == 1)).length = 1) ∧
      (issueSession [] 1 5).2 ≠ (⟨1, 4⟩ : JwtToken)) :=
  c2_single_session_and_fresh_token [] 1 5 ⟨1, 4⟩ (by decide)

/-- C3: the card funding schema accepts a number exactly when it passes Luhn
and resolves to a recognized brand; a Luhn failure carries an issue containing
"invalid", a Luhn-valid but brand-unrecognized number an issue containing
"unsupported" (word containment read case-insensitively, as the repository's
own tests do with `/invalid/i` and `/unsupported/i`), and the two failure
messages are distinct. -/
theorem c3_card_acceptance_and_messages (s : String) :
    (cardIssues s = [] ↔ (passesLuhn s = true ∧ (detectCardType s).isSome = true)) ∧
    (passesLuhn s = false →
      ∃ m ∈ cardIssues s, strContainsCI m "invalid" = true) ∧
    (passesLuhn s = true → detectCardType s = none →
      ∃ m ∈ cardIssues s, strContainsCI m "unsupported" = true) ∧
    ("Card number is invalid" : String) ≠ "Unsupported or unknown card type" := by
  refine ⟨?_, ?_, ?_, by decide⟩
  · cases hl : passesLuhn s <;> cases hd : detectCardType s <;> simp [cardIssues, hl, hd]
  · intro hl
    refine ⟨"Card number is invalid", ?_, by decide⟩
    simp [cardIssues, hl]
  · intro hl hd
    refine ⟨"Unsupported or unknown card type", ?_, by decide⟩
    simp [cardIssues, hl, hd]

/-- Witness for C3 at the repository's own test inputs: the Luhn-invalid
1234567890123456 draws the "invalid" issue, and the Luhn-valid but
brand-unrecognized 9000000000000001 draws the "unsupported" issue. -/
theorem c3_card_acceptance_witness :
    (∃ m ∈ cardIssues "1234567890123456", strContainsCI m "invalid" = true) ∧
    (∃ m ∈ cardIssues "9000000000000001", strContainsCI m "unsupported" = true) :=
  ⟨(c3_card_acceptance_and_messages "1234567890123456").2.1 (by decide),
   (c3_card_acceptance_and_messages "9000000000000001").2.2.1 (by decide) (by decide)⟩

/-- C4: evaluation at the failing input.  The 16-digit number with prefix 2221
is classified as NO brand — the new-range mastercard regex
`2(2[2-9]\d{2}|[3-6]\d{3}|7[01]\d{2}|720\d{2})\d{10}` anchors its first three
alternatives at 15 total digits, so the same digits with one digit fewer DO
match, contradicting the 16-digit 2221-2720 mastercard range that both the
spec and the code's own comment ("New range: 2221-2720") describe. -/
theorem c4_mastercard_new_range_off_by_one :
    detectCardType "2221000000000000" = none ∧
    detectCardType "222100000000000" = some CardType.mastercard := by
  exact ⟨rfl, rfl⟩

/-- C5: evaluation at the failing input.  `getTransactions` returns the stored
description verbatim: a description holding a literal script tag leaves the
boundary unescaped (it still contains "<script>" and no "&lt;script&gt;"),
contradicting the escaping the spec and test SEC-303 require. -/
theorem c5_getTransactions_returns_raw_markup :
    getTransactions c5Store 7 1 =
      Except.ok
        [⟨⟨1, "deposit", 1000, "<script>alert(\"owned\")</script>", "completed", 100⟩,
          some "checking"⟩] ∧
    strContains "<script>alert(\"owned\")</script>" "<script>" = true ∧
    strContains "<script>alert(\"owned\")</script>" "&lt;script&gt;" = false :=
  ⟨rfl, by decide, by decide⟩

/-- C6: evaluation at the failing input.  A logout whose caller is
authenticated (user 123) but carries no session cookie revokes nothing, yet
the handler returns success = true with message "Logged out successfully" —
`return { success: true, ... }` is unconditional — contradicting the
success=false / "no active session" outcome the spec and test PERF-402
require.  (When a cookie token is present, exactly the rows bearing that token
are deleted, as the second conjunct shows.) -/
theorem c6_logout_always_reports_success :
    logout (some 123) none [] = ([], true, "Logged out successfully") ∧
    (logout (some 1) (some ⟨1, 50⟩)
        [⟨1, ⟨1, 50⟩, 700⟩, ⟨2, ⟨2, 60⟩, 700⟩]).1 = [⟨2, ⟨2, 60⟩, 700⟩] :=
  ⟨rfl, rfl⟩

/-- C7: evaluation at the failing input.  The signup email field is validated
by `z.string().email().toLowerCase()` alone, which is purely syntactic:
"oops@example.con" is accepted (and lowercased), with no "did you mean"
rejection anywhere — contradicting the typo-suggestion rejection the spec and
test VAL-201 require. -/
theorem c7_signup_accepts_con_email :
    signupEmailCheck "oops@example.con" = some "oops@example.con" := rfl

/-- C8: evaluation at the failing input.  The signup state field is validated
by `z.string().length(2).toUpperCase()` alone: the unrecognized code "XX" is
accepted verbatim instead of being rejected, contradicting the spec and test
VAL-203; the case-normalization half of the claim does hold ("nj" is accepted
and stored as "NJ"). -/
theorem c8_signup_state_accepts_unrecognized_code :
    signupStateCheck "XX" = some "XX" ∧ signupStateCheck "nj" = some "NJ" :=
  ⟨rfl, rfl⟩

/-- C9: a login whose email matches no user and a login whose user exists but
whose hash comparison fails both produce the identical UNAUTHORIZED error with
the identical generic message "Invalid credentials", for every store, clock
and comparison capability — the two failure causes are indistinguishable to
the caller. -/
theorem c9_login_failures_indistinguishable
    (compare : String → String → Bool) (usersDb : List User)
    (sessionsDb : List Session) (e1 p1 e2 p2 : String) (t1 t2 : Nat) (u : User)
    (hv1 : zodEmailOk e1 = true) (hv2 : zodEmailOk e2 = true)
    (h1 : usersDb.find? (fun v => v.email == e1) = none)
    (h2 : usersDb.find? (fun v => v.email == e2) = some u)
    (h3 : compare p2 u.passwordHash = false) :
    login compare usersDb sessionsDb e1 p1 t1 =
      Except.error ("UNAUTHORIZED", "Invalid credentials") ∧
    login compare usersDb sessionsDb e2 p2 t2 =
      Except.error ("UNAUTHORIZED", "Invalid credentials") ∧
    login compare usersDb sessionsDb e1 p1 t1 =
      login compare usersDb sessionsDb e2 p2 t2 := by
  have L1 : login compare usersDb sessionsDb e1 p1 t1 =
      Except.error ("UNAUTHORIZED", "Invalid credentials") := by
    simp [login, hv1, h1]
  have L2 : login compare usersDb sessionsDb e2 p2 t2 =
      Except.error ("UNAUTHORIZED", "Invalid credentials") := by
    simp [login, hv2, h2, h3]
  exact ⟨L1, L2, L1.trans L2.symm⟩

/-- Witness for C9 at a concrete store: unknown email "x@y.com" versus known
email "a@b.com" with a failing comparison. -/
theorem c9_login_failures_witness :
    login eqCompare [⟨1, "a@b.com", "secret"⟩] [] "x@y.com" "pw" 3 =
      Except.error ("UNAUTHORIZED", "Invalid credentials") ∧
    login eqCompare [⟨1, "a@b.com", "secret"⟩] [] "a@b.com" "wrong" 4 =
      Except.error ("UNAUTHORIZED", "Invalid credentials") ∧
    login eqCompare [⟨1, "a@b.com", "secret"⟩] [] "x@y.com" "pw" 3 =
      login eqCompare [⟨1, "a@b.com", "secret"⟩] [] "a@b.com" "wrong" 4 :=
  c9_login_failures_indistinguishable eqCompare [⟨1, "a@b.com", "secret"⟩] []
    "x@y.com" "pw" "a@b.com" "wrong" 3 4 ⟨1, "a@b.com", "secret"⟩
    (by decide) (by decide) (by decide) (by decide) (by decide)

/-- C10: the server-side card validators of the account router and the
client-side copies inside the funding modal compute identical results on every
input string, so client-side and server-side card acceptance criteria
coincide. -/
theorem c10_client_server_card_validation_agree (s : String) :
    passesLuhn s = clientPassesLuhn s ∧ detectCardType s = clientDetectCardType s :=
  ⟨rfl, rfl⟩

end SupportBank

